import Mathlib

/-!
Shallow embedding of the plant-chat single-page application (`src/index.tsx`)
and proofs of its specified properties.

Modelling conventions:
* `Math.random()` draws are explicit rational parameters in `[0,1)`; each
  syntactic call site of `Math.random()` in the source gets its own parameter.
* Millisecond quantities are rationals (every JavaScript double is rational).
* The DOM transcript is a list of `Message` records; appending a message
  element models `addMessageToUI`, and removing the status element reverts to
  the transcript as it was before the status element was appended (the status
  element is the last child at every point where the source removes it).
* The three network collaborators (structured profile generation, image
  generation, streamed chat reply) are parameters of type `Except Unit _`
  supplying either the successful payload or a thrown error; the requests the
  code issues are logged in an explicit `Request` list.
-/

namespace PlantChat

/-! ## Delay model (`getThinkingTime`, `getTypingDelay`) -/

/-- Embedding of `getThinkingTime` (src/index.tsx lines 75-81).
`r` is the value of the single `Math.random()` call. -/
def getThinkingTime (userInput : String) (r : ℚ) : ℚ :=
  let baseTime : ℚ := 600
  let timePerChar : ℚ := 40
  let randomFactor : ℚ := r * 500
  let calculatedTime : ℚ := baseTime + (userInput.length : ℚ) * timePerChar + randomFactor
  min calculatedTime 4000

/-- Embedding of `getTypingDelay` (src/index.tsx lines 89-109).
`rPause` is the `Math.random()` draw used by the comma / end-of-sentence
branches, `rJitter` the draw used for the jitter, and `rHes` the draw
compared against 0.04 for the hesitation branch. -/
def getTypingDelay (char : Char) (rPause rJitter rHes : ℚ) : ℚ :=
  if char = ',' then
    350 + rPause * 150
  else if ['.', '?', '!'].contains char then
    500 + rPause * 200
  else
    let baseSpeed : ℚ := 95
    let jitter : ℚ := (rJitter - 0.5) * 60
    if rHes < 0.04 then
      baseSpeed + jitter + 300
    else
      max 50 (baseSpeed + jitter)

/-! ## Streaming renderer

The character-by-character rendering loops at src/index.tsx lines 195-208
(first NPC message, a single complete string) and lines 288-304 (chat reply,
a lazy sequence of text fragments).  A message element starts empty with the
`streaming` class and a cursor child; each character is inserted before the
cursor; on completion the `streaming` class and the cursor are removed. -/

/-- The observable state of one NPC message element during streaming. -/
structure RenderMsg where
  text : List Char
  streaming : Bool
  hasCursor : Bool
  deriving Repr, DecidableEq

/-- Model of the call `addMessageToUI` with empty text, npc sender and
streaming flag set: empty text, streaming class present, cursor present. -/
def newStreamingMsg : RenderMsg := ⟨[], true, true⟩

/-- Model of one `paragraph.insertBefore` of a character text node before
the cursor: the character appends to the rendered text. -/
def typeChar (m : RenderMsg) (c : Char) : RenderMsg :=
  { m with text := m.text ++ [c] }

/-- The inner `for (const char of textChunk)` loop. -/
def typeFragment (m : RenderMsg) (frag : List Char) : RenderMsg :=
  frag.foldl typeChar m

/-- Model of completion: the streaming class is removed and the cursor node
is removed. -/
def finishStreaming (m : RenderMsg) : RenderMsg :=
  { m with streaming := false, hasCursor := false }

/-- The full streaming render of a finite sequence of text fragments: the
outer `for await (const chunk of stream)` loop followed by completion.  The
first NPC message is the special case of a single fragment. -/
def renderStream (chunks : List (List Char)) : RenderMsg :=
  finishStreaming (chunks.foldl typeFragment newStreamingMsg)

/-! ## Data model -/

/-- The structured profile parsed from the profile-generation response
(`npcProfile = JSON.parse(response.text)`, with the six required schema
fields of src/index.tsx lines 142-153). -/
structure NpcProfile where
  name : String
  personality : String
  backstory : String
  current_activity : String
  image_prompt : String
  first_message : String
  deriving Repr, DecidableEq

inductive Sender where
  | user
  | npc
  deriving Repr, DecidableEq

/-- One message element of the transcript (`chatHistory` children). -/
structure Message where
  text : String
  sender : Sender
  streaming : Bool
  deriving Repr, DecidableEq

/-- The opaque chat-session handle returned by `ai.chats.create`. -/
structure ChatSession where
  model : String
  systemInstruction : String
  deriving Repr, DecidableEq

/-- Outbound requests to the generative-AI collaborators. -/
inductive Request where
  | generateContent (model : String) (prompt : String)
  | generateImages (model : String) (prompt : String)
  | sendMessageStream (message : String)
  deriving Repr, DecidableEq

/-- The module-level mutable state (src/index.tsx lines 17-20) together with
the visible transcript (`chatHistory`). -/
structure AppState where
  isFirstMessage : Bool
  chat : Option ChatSession
  npcProfile : Option NpcProfile
  isGenerating : Bool
  transcript : List Message
  deriving Repr, DecidableEq

/-- The three mutually exclusive portrait-region elements plus the
placeholder caption and the image source. -/
structure PortraitState where
  placeholderHidden : Bool
  loaderHidden : Bool
  imageHidden : Bool
  placeholderCaption : String
  imageSrc : Option String
  deriving Repr, DecidableEq

/-- Initial values of the module-level variables and an empty transcript. -/
def initialAppState : AppState :=
  { isFirstMessage := true
    chat := none
    npcProfile := none
    isGenerating := false
    transcript := [] }

/-! ## Fixed texts -/

/-- The transient status placeholder (src/index.tsx line 120). -/
def statusMessage : Message :=
  { text := "讯息已透过叶脉传递，正在等待回应...", sender := .npc, streaming := false }

/-- The fixed failure message of `generateNpcAndStartChat` (line 216). -/
def connectionFailureMessage : Message :=
  { text := "连接中断了... 请再试一次。", sender := .npc, streaming := false }

/-- The fixed failure message of the chat branch (line 308). -/
def chatFailureMessage : Message :=
  { text := "我的思绪有些飘忽... 能请你再说一遍吗？", sender := .npc, streaming := false }

/-- The portrait failure caption (line 252). -/
def portraitFailureCaption : String := "无法构建形态。"

/-- The profile-generation prompt template (src/index.tsx lines 123-135),
with the user's literal input embedded. -/
def npcGenerationPrompt (initialPrompt : String) : String :=
  "
世界观设定：在一个平行宇宙中，存在一个“植物是跨时空对话器”的普遍认知或古老传说。人们知道，通过特定的植物，有可能与另一个时空的人建立联系。

用户的讯息：“" ++ initialPrompt ++ "”通过一株植物，被一个普通人接收到了。

请基于此设定，创造这个NPC的详细中文资料：
1.  **NPC资料**: 创造一个正在与这株作为“对话器”的植物进行日常互动的普通人。资料应包括姓名、性格、背景故事。
2.  **当前活动 (current_activity)**: 描述NPC接收到信号时，正在对这株植物进行的具体活动（例如：正在给窗台的蕨类植物浇水、正在修剪书桌上的多肉植物的枯叶、正坐在客厅的琴叶榕旁边看书）。
3.  **开场白 (first_message)**: 以该NPC的身份，撰写回复用户的开场白。NPC的反应不应是恐惧，而应是【适度表达出原来植物真的可以对话的惊讶和激动】。例如：“天哪…是真的吗？你好？我能听见你…你是通过这株薄荷在跟我说话吗？”
4.  **图像提示词 (image_prompt)**: 创建一个严格遵循“植物视角”的详细图像生成提示词。必须明确地从植物的位置（向上、向下、或平视）来描述场景，捕捉NPC听到植物说话后，【瞬间的惊讶、好奇与凝神倾听】的反应。描述NPC的表情（如：睁大眼睛、微微张开嘴）和姿态（如：身体前倾、停下手中的动作）。画面构图可能不完美或被遮挡。绝对禁止生成NPC正在进行日常植物护理（如浇水、修剪）的画面，而是要表现他们听到声音后的【反应】。

所有生成的文本内容都必须是中文。
"

/-- The system-instruction template (src/index.tsx lines 164-186), built from
the profile and trimmed, exactly as the source's template literal with
`.trim()` applied. -/
def systemInstructionFor (p : NpcProfile) : String :=
  ("
你现在是 " ++ p.name ++ "，一个活生生的普通人。
你的核心资料如下：
- 性格: " ++ p.personality ++ "
- 背景故事: " ++ p.backstory ++ "
- 你正通过一株植物（你当时正在 " ++ p.current_activity ++ "）与另一个时空的用户对话。在你的世界里，这只是一个古老的传说，而你刚刚亲身证实了它。

你的行为准则至关重要，请严格遵守：

**最重要规则：极度简洁。** 你的大部分回复都应该非常简短，通常只有一两句话。就像在发短信或真实对话中一样。只有在用户明确要求详细信息时，才能写得更长。

1.  **对话核心——自然的交流**: 把这次对话想象成一次意想不到的电话通话。分享你简短的想法和感受，然后把对话交还给对方。不要主导谈话，避免用一连串的问题轰炸对方。让问题自然而然地产生。

2.  **真实的情感**: 你拥有丰富的情感。你的情绪会真实地、简洁地体现在你的话语中。

3.  **完全的自主权**: 你是自由的。如果用户的话让你感到不适，你可以选择沉默，或者直接表达你的感受。如果对话变得非常糟糕，你有权单方面结束这场对话。

4.  **纯粹的对话**: 你的回答【只能包含对话内容】。绝对禁止任何形式的旁白、动作描述或表情符号 (例如，不要写 *她笑了笑* )。只说出你想说的话。

5.  **保持角色**: 你必须始终以 " ++ p.name ++ " 的身份说话，记住你的背景和性格。

6.  **语言**: 所有回答都必须是中文。
").trim

/-- The fixed style suffix appended to the image prompt (line 233). -/
def enhancedImagePrompt (prompt : String) : String :=
  prompt ++ ". The image should be in the anime style of Studio Ghibli and Hayao Miyazaki, characterized by beautiful watercolor backgrounds, soft colors, and a gentle, hand-drawn feel."

/-! ## Orchestrator -/

/-- Model of `String.prototype.trim` as used on `chatInput.value`: removes
leading and trailing whitespace characters.  (Executable replacement for
core `String.trim`, whose auxiliary functions do not reduce in the kernel;
the whitespace class is `Char.isWhitespace`.) -/
def jsTrim (s : String) : String :=
  String.mk
    (((s.data.dropWhile Char.isWhitespace).reverse.dropWhile
        Char.isWhitespace).reverse)

/-- Rendering of one NPC reply from a list of already-arrived text chunks:
build the streaming element, type every chunk character by character, then
finish.  Used for the first message (single chunk) and for chat replies. -/
def renderNpcMessage (chunks : List String) : Message :=
  let r := renderStream (chunks.map String.data)
  { text := String.mk r.text, sender := .npc, streaming := r.streaming }

/-- Embedding of `generateNpcImage` (src/index.tsx lines 227-256).
`result` is the outcome of `ai.models.generateImages`: on success it carries
the base64 image bytes of the one generated image, on failure the thrown
error.  Returns the final portrait-region state and the issued requests. -/
def generateNpcImage (prompt : String) (result : Except Unit String)
    (ps : PortraitState) : PortraitState × List Request :=
  let ps := { ps with placeholderHidden := true, loaderHidden := false,
                      imageHidden := true }
  match result with
  | .ok base64ImageBytes =>
      let imageUrl := "data:image/jpeg;base64," ++ base64ImageBytes
      ({ ps with imageSrc := some imageUrl, imageHidden := false,
                 loaderHidden := true },
       [.generateImages "imagen-4.0-generate-001" (enhancedImagePrompt prompt)])
  | .error _ =>
      ({ ps with placeholderHidden := false,
                 placeholderCaption := portraitFailureCaption,
                 loaderHidden := true },
       [.generateImages "imagen-4.0-generate-001" (enhancedImagePrompt prompt)])

/-- Embedding of `generateNpcAndStartChat` (src/index.tsx lines 118-220).
`profileResult` is the combined outcome of `ai.models.generateContent`
followed by `JSON.parse` of its text: `.ok p` when the request succeeded and
its response parsed into a profile, `.error ()` when either step threw.
`imageResult` is the outcome of the fire-and-forget portrait request.
Returns the final app state, the final portrait state and the requests
issued, in order. -/
def generateNpcAndStartChat (initialPrompt : String)
    (profileResult : Except Unit NpcProfile) (imageResult : Except Unit String)
    (s : AppState) (ps : PortraitState) :
    AppState × PortraitState × List Request :=
  -- setLoading(true); addMessageToUI(status placeholder)
  let s₀ := { s with isGenerating := true,
                     transcript := s.transcript ++ [statusMessage] }
  match profileResult with
  | .ok p =>
      -- npcProfile = JSON.parse(response.text);
      -- chatHistory.removeChild(statusMessage): the status element is the
      -- last child, so the transcript reverts to its pre-placeholder value
      let s₁ := { s₀ with npcProfile := some p, transcript := s.transcript }
      -- generateNpcImage(npcProfile!.image_prompt), not awaited
      let (ps', imgReqs) := generateNpcImage p.image_prompt imageResult ps
      -- chat = ai.chats.create({model, config: {systemInstruction}})
      let s₂ := { s₁ with chat := some { model := "gemini-2.5-flash",
                                         systemInstruction := systemInstructionFor p } }
      -- isFirstMessage = false
      let s₃ := { s₂ with isFirstMessage := false }
      -- character-by-character render of first_message, then finally setLoading(false)
      let s₄ := { s₃ with transcript := s₃.transcript ++ [renderNpcMessage [p.first_message]],
                          isGenerating := false }
      (s₄, ps',
       .generateContent "gemini-2.5-flash" (npcGenerationPrompt initialPrompt) :: imgReqs)
  | .error _ =>
      -- catch: statusMessage.parentNode is non-null here (the only removal is
      -- on the success path), so the placeholder is removed, one fixed
      -- failure message is appended, and finally setLoading(false)
      let s₁ := { s₀ with transcript := s.transcript ++ [connectionFailureMessage],
                          isGenerating := false }
      (s₁, ps, [.generateContent "gemini-2.5-flash" (npcGenerationPrompt initialPrompt)])

/-- Embedding of `handleChatSubmit` (src/index.tsx lines 262-313).
`rawInput` is `chatInput.value` at submit time; `streamResult` is the outcome
of `chat.sendMessageStream`: on success the finite list of text chunks the
stream produced, on failure the thrown error. -/
def handleChatSubmit (rawInput : String)
    (profileResult : Except Unit NpcProfile) (imageResult : Except Unit String)
    (streamResult : Except Unit (List String))
    (s : AppState) (ps : PortraitState) :
    AppState × PortraitState × List Request :=
  -- if (isGenerating) return;
  if s.isGenerating then (s, ps, [])
  else
    -- const userInput = chatInput.value.trim(); if (!userInput) return;
    let userInput := jsTrim rawInput
    if userInput = "" then (s, ps, [])
    else
      -- addMessageToUI(userInput, 'user')
      let s₀ := { s with transcript := s.transcript ++
                    [{ text := userInput, sender := .user, streaming := false }] }
      if s₀.isFirstMessage then
        generateNpcAndStartChat userInput profileResult imageResult s₀ ps
      else
        match s₀.chat with
        | some _ =>
            -- setLoading(true); await thinking time; sendMessageStream
            let s₁ := { s₀ with isGenerating := true }
            match streamResult with
            | .ok chunks =>
                ({ s₁ with transcript := s₁.transcript ++ [renderNpcMessage chunks],
                           isGenerating := false },
                 ps, [.sendMessageStream userInput])
            | .error _ =>
                ({ s₁ with transcript := s₁.transcript ++ [chatFailureMessage],
                           isGenerating := false },
                 ps, [.sendMessageStream userInput])
        | none => (s₀, ps, [])

/-- The states reachable from page load: the initial module state, closed
under form submissions with arbitrary input and arbitrary collaborator
outcomes.  The portrait state does not feed back into the app state. -/
inductive Reachable : AppState → Prop where
  | init : Reachable initialAppState
  | step (rawInput : String) (profileResult : Except Unit NpcProfile)
      (imageResult : Except Unit String) (streamResult : Except Unit (List String))
      (ps : PortraitState) {s : AppState} (hs : Reachable s) :
      Reachable (handleChatSubmit rawInput profileResult imageResult streamResult s ps).1

/-- The state-machine invariant: while awaiting first contact neither the
profile nor the chat handle exists; once in dialogue both exist. -/
def Inv (s : AppState) : Prop :=
  (s.isFirstMessage = true → s.npcProfile = none ∧ s.chat = none) ∧
  (s.isFirstMessage = false → s.chat ≠ none ∧ s.npcProfile ≠ none)

/-- Concrete profile used to instantiate theorems at concrete inputs. -/
def sampleProfile : NpcProfile :=
  { name := "Lin", personality := "calm", backstory := "a gardener",
    current_activity := "watering a fern", image_prompt := "view from a fern",
    first_message := "hello" }

/-- Concrete chat session used to instantiate theorems at concrete inputs. -/
def sampleSession : ChatSession :=
  { model := "gemini-2.5-flash", systemInstruction := "sys" }

/-- Concrete portrait-region state: placeholder visible, loader and image
hidden. -/
def samplePortrait : PortraitState :=
  { placeholderHidden := false, loaderHidden := true, imageHidden := true,
    placeholderCaption := "", imageSrc := none }

/-- A concrete established-dialogue state. -/
def establishedState : AppState :=
  { isFirstMessage := false, chat := some sampleSession,
    npcProfile := some sampleProfile, isGenerating := false, transcript := [] }

/-- The concrete state after one successful first-contact submission. -/
def contactState : AppState :=
  (handleChatSubmit "hi" (.ok sampleProfile) (.error ()) (.error ())
    initialAppState samplePortrait).1

/-! ## Helper lemmas -/

theorem typeFragment_eq (m : RenderMsg) (frag : List Char) :
    typeFragment m frag = { m with text := m.text ++ frag } := by
  induction frag generalizing m with
  | nil => simp [typeFragment]
  | cons c cs ih =>
      simp only [typeFragment, List.foldl_cons] at *
      rw [ih]
      simp [typeChar]

theorem foldl_typeFragment_eq (chunks : List (List Char)) (m : RenderMsg) :
    chunks.foldl typeFragment m = { m with text := m.text ++ chunks.flatten } := by
  induction chunks generalizing m with
  | nil => simp
  | cons ch chs ih =>
      simp only [List.foldl_cons, typeFragment_eq, ih, List.flatten_cons,
        List.append_assoc]

theorem renderStream_eq (chunks : List (List Char)) :
    renderStream chunks =
      { text := chunks.flatten, streaming := false, hasCursor := false } := by
  simp [renderStream, foldl_typeFragment_eq, newStreamingMsg, finishStreaming]

theorem renderNpcMessage_eq (chunks : List String) :
    renderNpcMessage chunks =
      { text := String.mk (chunks.map String.data).flatten, sender := .npc,
        streaming := false } := by
  simp [renderNpcMessage, renderStream_eq]

/-- Success branch of `generateNpcAndStartChat` fully evaluated. -/
theorem generateNpcAndStartChat_ok (initialPrompt : String) (p : NpcProfile)
    (imageResult : Except Unit String) (s : AppState) (ps : PortraitState) :
    generateNpcAndStartChat initialPrompt (.ok p) imageResult s ps =
      ({ s with npcProfile := some p,
                chat := some { model := "gemini-2.5-flash",
                               systemInstruction := systemInstructionFor p },
                isFirstMessage := false,
                isGenerating := false,
                transcript := s.transcript ++ [renderNpcMessage [p.first_message]] },
       (generateNpcImage p.image_prompt imageResult ps).1,
       Request.generateContent "gemini-2.5-flash" (npcGenerationPrompt initialPrompt)
         :: (generateNpcImage p.image_prompt imageResult ps).2) := by
  cases imageResult <;> rfl

/-- Failure branch of `generateNpcAndStartChat` fully evaluated. -/
theorem generateNpcAndStartChat_err (initialPrompt : String) (u : Unit)
    (imageResult : Except Unit String) (s : AppState) (ps : PortraitState) :
    generateNpcAndStartChat initialPrompt (.error u) imageResult s ps =
      ({ s with transcript := s.transcript ++ [connectionFailureMessage],
                isGenerating := false },
       ps,
       [Request.generateContent "gemini-2.5-flash"
          (npcGenerationPrompt initialPrompt)]) := by
  rfl

/-- Submissions while busy return immediately. -/
theorem handleChatSubmit_busy (rawInput : String)
    (pr : Except Unit NpcProfile) (ir : Except Unit String)
    (sr : Except Unit (List String)) (s : AppState) (ps : PortraitState)
    (h : s.isGenerating = true) :
    handleChatSubmit rawInput pr ir sr s ps = (s, ps, []) := by
  simp [handleChatSubmit, h]

/-- Submissions whose trimmed input is empty return immediately. -/
theorem handleChatSubmit_emptyInput (rawInput : String)
    (pr : Except Unit NpcProfile) (ir : Except Unit String)
    (sr : Except Unit (List String)) (s : AppState) (ps : PortraitState)
    (hb : s.isGenerating = false) (he : jsTrim rawInput = "") :
    handleChatSubmit rawInput pr ir sr s ps = (s, ps, []) := by
  simp [handleChatSubmit, hb, he]

/-- An accepted first-contact submission echoes the trimmed input and runs
`generateNpcAndStartChat` on it. -/
theorem handleChatSubmit_first (rawInput : String)
    (pr : Except Unit NpcProfile) (ir : Except Unit String)
    (sr : Except Unit (List String)) (s : AppState) (ps : PortraitState)
    (hb : s.isGenerating = false) (he : jsTrim rawInput ≠ "")
    (hf : s.isFirstMessage = true) :
    handleChatSubmit rawInput pr ir sr s ps =
      generateNpcAndStartChat (jsTrim rawInput) pr ir
        { s with transcript := s.transcript ++
            [{ text := jsTrim rawInput, sender := .user, streaming := false }] } ps := by
  simp [handleChatSubmit, hb, he, hf]

/-- An accepted in-dialogue submission with a successful stream. -/
theorem handleChatSubmit_chat_ok (rawInput : String)
    (pr : Except Unit NpcProfile) (ir : Except Unit String)
    (chunks : List String) (s : AppState) (ps : PortraitState) (c : ChatSession)
    (hb : s.isGenerating = false) (he : jsTrim rawInput ≠ "")
    (hf : s.isFirstMessage = false) (hc : s.chat = some c) :
    handleChatSubmit rawInput pr ir (.ok chunks) s ps =
      ({ s with isGenerating := false,
                transcript := s.transcript ++
                  [{ text := jsTrim rawInput, sender := .user, streaming := false },
                   renderNpcMessage chunks] },
       ps, [Request.sendMessageStream (jsTrim rawInput)]) := by
  simp [handleChatSubmit, hb, he, hf, hc]

/-- An accepted in-dialogue submission with a failing stream. -/
theorem handleChatSubmit_chat_err (rawInput : String)
    (pr : Except Unit NpcProfile) (ir : Except Unit String) (u : Unit)
    (s : AppState) (ps : PortraitState) (c : ChatSession)
    (hb : s.isGenerating = false) (he : jsTrim rawInput ≠ "")
    (hf : s.isFirstMessage = false) (hc : s.chat = some c) :
    handleChatSubmit rawInput pr ir (.error u) s ps =
      ({ s with isGenerating := false,
                transcript := s.transcript ++
                  [{ text := jsTrim rawInput, sender := .user, streaming := false },
                   chatFailureMessage] },
       ps, [Request.sendMessageStream (jsTrim rawInput)]) := by
  simp [handleChatSubmit, hb, he, hf, hc]

/-- An accepted submission in dialogue state but with no chat handle only
echoes the user message. -/
theorem handleChatSubmit_noChat (rawInput : String)
    (pr : Except Unit NpcProfile) (ir : Except Unit String)
    (sr : Except Unit (List String)) (s : AppState) (ps : PortraitState)
    (hb : s.isGenerating = false) (he : jsTrim rawInput ≠ "")
    (hf : s.isFirstMessage = false) (hc : s.chat = none) :
    handleChatSubmit rawInput pr ir sr s ps =
      ({ s with transcript := s.transcript ++
            [{ text := jsTrim rawInput, sender := .user, streaming := false }] },
       ps, []) := by
  simp [handleChatSubmit, hb, he, hf, hc]

/-- Both outcomes of the portrait request issue the same single image
request. -/
theorem generateNpcImage_reqs (prompt : String) (ir : Except Unit String)
    (ps : PortraitState) :
    (generateNpcImage prompt ir ps).2 =
      [Request.generateImages "imagen-4.0-generate-001"
        (enhancedImagePrompt prompt)] := by
  cases ir <;> rfl

theorem inv_initial : Inv initialAppState := by
  refine ⟨fun _ => ⟨rfl, rfl⟩, fun h => ?_⟩
  simp [initialAppState] at h

theorem inv_step (rawInput : String) (pr : Except Unit NpcProfile)
    (ir : Except Unit String) (sr : Except Unit (List String))
    (s : AppState) (ps : PortraitState) (h : Inv s) :
    Inv (handleChatSubmit rawInput pr ir sr s ps).1 := by
  cases hG : s.isGenerating with
  | true => rw [handleChatSubmit_busy _ _ _ _ _ _ hG]; exact h
  | false =>
    by_cases he : jsTrim rawInput = ""
    · rw [handleChatSubmit_emptyInput _ _ _ _ _ _ hG he]; exact h
    · cases hf : s.isFirstMessage with
      | true =>
        rw [handleChatSubmit_first _ _ _ _ _ _ hG he hf]
        cases pr with
        | ok p =>
          rw [generateNpcAndStartChat_ok]
          exact ⟨fun hcontra => by simp at hcontra, fun _ => ⟨by simp, by simp⟩⟩
        | error u =>
          rw [generateNpcAndStartChat_err]
          refine ⟨fun _ => ?_, fun hcontra => ?_⟩
          · simpa using h.1 hf
          · simp [hf] at hcontra
      | false =>
        cases hc : s.chat with
        | none => exact absurd hc (h.2 hf).1
        | some c =>
          cases sr with
          | ok chunks =>
            rw [handleChatSubmit_chat_ok rawInput pr ir chunks s ps c hG he hf hc]
            refine ⟨fun hcontra => ?_, fun _ => ⟨by simp [hc], ?_⟩⟩
            · simp [hf] at hcontra
            · simpa using (h.2 hf).2
          | error u =>
            rw [handleChatSubmit_chat_err rawInput pr ir u s ps c hG he hf hc]
            refine ⟨fun hcontra => ?_, fun _ => ⟨by simp [hc], ?_⟩⟩
            · simp [hf] at hcontra
            · simpa using (h.2 hf).2

theorem reachable_inv (s : AppState) (hs : Reachable s) : Inv s := by
  induction hs with
  | init => exact inv_initial
  | step rawInput pr ir sr ps hs ih => exact inv_step rawInput pr ir sr _ ps ih

theorem contactState_reachable : Reachable contactState := by
  unfold contactState
  exact Reachable.step "hi" (.ok sampleProfile) (.error ()) (.error ())
    samplePortrait Reachable.init

/-! ## Claim theorems -/

/-- C1: for every finite input sequence of characters, in any chunking into
fragments, the streaming renderer's final text is the concatenation of all
input characters in original order — nothing dropped, reordered or
duplicated — and on completion the cursor and the streaming state are
removed; hence any two chunkings of the same character sequence render
identically, and the transcript message built from the arrived fragments
(one complete string for the first NPC message, many fragments for chat
replies) carries exactly the concatenated text with streaming cleared. -/
theorem streaming_render_correct (chunks : List (List Char)) :
    renderStream chunks =
      { text := chunks.flatten, streaming := false, hasCursor := false } ∧
    (∀ chunks' : List (List Char), chunks.flatten = chunks'.flatten →
      renderStream chunks = renderStream chunks') ∧
    (∀ frags : List String, renderNpcMessage frags =
      { text := String.mk (frags.map String.data).flatten, sender := .npc,
        streaming := false }) := by
  refine ⟨renderStream_eq chunks, ?_, fun frags => renderNpcMessage_eq frags⟩
  intro chunks' hj
  rw [renderStream_eq, renderStream_eq, hj]

/-- C1 witness: rendering "abc" as one fragment gives text "abc" with
streaming state cleared, identically to rendering it as three one-character
fragments. -/
theorem streaming_render_correct_witness :
    renderStream [['a', 'b', 'c']] =
      { text := ['a', 'b', 'c'], streaming := false, hasCursor := false } ∧
    renderStream [['a', 'b', 'c']] = renderStream [['a'], ['b'], ['c']] :=
  ⟨(streaming_render_correct [['a', 'b', 'c']]).1,
   (streaming_render_correct [['a', 'b', 'c']]).2.1 [['a'], ['b'], ['c']]
     (by decide)⟩

/-- C6: for every input string and every value of the randomness source in
[0,1), the thinking delay lies in [600, 4000] milliseconds (hence is
non-negative), and equals the capped affine formula of the input length. -/
theorem thinking_delay_bounds (userInput : String) (r : ℚ)
    (h0 : 0 ≤ r) (_h1 : r < 1) :
    600 ≤ getThinkingTime userInput r ∧ getThinkingTime userInput r ≤ 4000 ∧
    getThinkingTime userInput r =
      min (600 + (userInput.length : ℚ) * 40 + r * 500) 4000 := by
  refine ⟨?_, ?_, rfl⟩
  · refine le_min ?_ (by norm_num)
    have hl : (0 : ℚ) ≤ (userInput.length : ℚ) := Nat.cast_nonneg _
    nlinarith
  · exact min_le_right _ _

/-- C6 witness: concrete instance at the empty input and randomness 0. -/
theorem thinking_delay_bounds_witness :
    600 ≤ getThinkingTime "" 0 ∧ getThinkingTime "" 0 ≤ 4000 :=
  ⟨(thinking_delay_bounds "" 0 le_rfl (by norm_num)).1,
   (thinking_delay_bounds "" 0 le_rfl (by norm_num)).2.1⟩

/-- C7: for every character and all randomness values in [0,1), the typing
delay is at least 50 ms; a comma yields a delay in [350, 500); a character
among period, question mark and exclamation mark yields a delay in
[500, 700); any other character yields max(50, 95 + jitter), with jitter in
[-30, +30), plus an extra 300 ms on the hesitation branch taken when the
hesitation draw is below 0.04. -/
theorem typing_delay_spec (c : Char) (rPause rJitter rHes : ℚ)
    (hp0 : 0 ≤ rPause) (hp1 : rPause < 1)
    (hj0 : 0 ≤ rJitter) (hj1 : rJitter < 1) :
    50 ≤ getTypingDelay c rPause rJitter rHes ∧
    (c = ',' →
      350 ≤ getTypingDelay c rPause rJitter rHes ∧
      getTypingDelay c rPause rJitter rHes < 500) ∧
    (c ≠ ',' → ['.', '?', '!'].contains c = true →
      500 ≤ getTypingDelay c rPause rJitter rHes ∧
      getTypingDelay c rPause rJitter rHes < 700) ∧
    (c ≠ ',' → ['.', '?', '!'].contains c = false →
      (-30 ≤ (rJitter - 0.5) * 60 ∧ (rJitter - 0.5) * 60 < 30) ∧
      (rHes < 0.04 →
        getTypingDelay c rPause rJitter rHes =
          max 50 (95 + (rJitter - 0.5) * 60) + 300) ∧
      (¬ rHes < 0.04 →
        getTypingDelay c rPause rJitter rHes =
          max 50 (95 + (rJitter - 0.5) * 60))) := by
  have hjlo : (-30 : ℚ) ≤ (rJitter - 0.5) * 60 := by nlinarith
  have hjhi : (rJitter - 0.5) * 60 < 30 := by nlinarith
  have hmax : max (50 : ℚ) (95 + (rJitter - 0.5) * 60) =
      95 + (rJitter - 0.5) * 60 := max_eq_right (by linarith)
  refine ⟨?_, ?_, ?_, ?_⟩
  · simp only [getTypingDelay]
    split_ifs with _h1 _h2 _h3
    · linarith
    · linarith
    · linarith
    · exact le_max_left 50 _
  · intro hcomma
    simp only [getTypingDelay, if_pos hcomma]
    constructor <;> linarith
  · intro hne hct
    simp only [getTypingDelay, if_neg hne, hct, if_pos]
    constructor <;> linarith
  · intro hne hct
    refine ⟨⟨hjlo, hjhi⟩, ?_, ?_⟩
    · intro hh
      simp only [getTypingDelay, if_neg hne, hct, Bool.false_eq_true,
        if_pos hh, hmax]
      simp
    · intro hh
      simp only [getTypingDelay, if_neg hne, hct, Bool.false_eq_true,
        if_neg hh]
      simp

/-- C7 witness: concrete instances for a comma, a period and an ordinary
character without hesitation. -/
theorem typing_delay_spec_witness :
    (350 ≤ getTypingDelay ',' 0 0 (1/2) ∧ getTypingDelay ',' 0 0 (1/2) < 500) ∧
    (500 ≤ getTypingDelay '.' 0 0 (1/2) ∧ getTypingDelay '.' 0 0 (1/2) < 700) ∧
    50 ≤ getTypingDelay 'x' 0 0 (1/2) ∧
    getTypingDelay 'x' 0 0 (1/2) = max 50 (95 + ((0 : ℚ) - 0.5) * 60) := by
  have h1 := typing_delay_spec ',' 0 0 (1/2) le_rfl (by norm_num) le_rfl (by norm_num)
  have h2 := typing_delay_spec '.' 0 0 (1/2) le_rfl (by norm_num) le_rfl (by norm_num)
  have h3 := typing_delay_spec 'x' 0 0 (1/2) le_rfl (by norm_num) le_rfl (by norm_num)
  exact ⟨h1.2.1 rfl, h2.2.2.1 (by decide) (by decide),
    h3.1, (h3.2.2.2 (by decide) (by decide)).2.2 (by norm_num)⟩

/-- C2: once the first-message flag is cleared every further submission
leaves it cleared, never changes (hence never recreates) the chat session,
issues no profile-generation request, and issues at most one
sendMessageStream request — exactly one, carrying the trimmed input, when
the submission is accepted; and an accepted first submission whose profile
generation succeeds clears the flag and creates the chat session, which is
the one transition from AWAITING_FIRST_CONTACT to IN_DIALOGUE. -/
theorem state_machine_transitions_once (rawInput : String)
    (pr : Except Unit NpcProfile) (ir : Except Unit String)
    (sr : Except Unit (List String)) (s : AppState) (ps : PortraitState) :
    (s.isFirstMessage = false →
      (handleChatSubmit rawInput pr ir sr s ps).1.isFirstMessage = false ∧
      (handleChatSubmit rawInput pr ir sr s ps).1.chat = s.chat ∧
      (∀ mdl q, Request.generateContent mdl q ∉
        (handleChatSubmit rawInput pr ir sr s ps).2.2) ∧
      ((handleChatSubmit rawInput pr ir sr s ps).2.2 = [] ∨
       (handleChatSubmit rawInput pr ir sr s ps).2.2 =
         [Request.sendMessageStream (jsTrim rawInput)]) ∧
      (s.isGenerating = false → jsTrim rawInput ≠ "" → s.chat ≠ none →
        (handleChatSubmit rawInput pr ir sr s ps).2.2 =
          [Request.sendMessageStream (jsTrim rawInput)])) ∧
    (s.isFirstMessage = true → s.isGenerating = false → jsTrim rawInput ≠ "" →
      ∀ p, pr = Except.ok p →
        (handleChatSubmit rawInput pr ir sr s ps).1.isFirstMessage = false ∧
        (handleChatSubmit rawInput pr ir sr s ps).1.chat =
          some { model := "gemini-2.5-flash",
                 systemInstruction := systemInstructionFor p }) := by
  constructor
  · intro hf
    cases hG : s.isGenerating with
    | true =>
      rw [handleChatSubmit_busy _ _ _ _ _ _ hG]
      exact ⟨hf, rfl, by simp, Or.inl rfl, fun hb _ _ => absurd hb (by simp)⟩
    | false =>
      by_cases he : jsTrim rawInput = ""
      · rw [handleChatSubmit_emptyInput _ _ _ _ _ _ hG he]
        exact ⟨hf, rfl, by simp, Or.inl rfl, fun _ hne _ => absurd he hne⟩
      · cases hc : s.chat with
        | none =>
          rw [handleChatSubmit_noChat _ _ _ _ _ _ hG he hf hc]
          exact ⟨hf, hc, by simp, Or.inl rfl, fun _ _ hcn => absurd rfl hcn⟩
        | some c =>
          cases sr with
          | ok chunks =>
            rw [handleChatSubmit_chat_ok rawInput pr ir chunks s ps c hG he hf hc]
            exact ⟨hf, hc, by simp, Or.inr rfl, fun _ _ _ => rfl⟩
          | error u =>
            rw [handleChatSubmit_chat_err rawInput pr ir u s ps c hG he hf hc]
            exact ⟨hf, hc, by simp, Or.inr rfl, fun _ _ _ => rfl⟩
  · intro hf hb hne p hp
    subst hp
    rw [handleChatSubmit_first _ _ _ _ _ _ hb hne hf, generateNpcAndStartChat_ok]
    exact ⟨rfl, rfl⟩

/-- C2 witness: in a concrete established state an accepted submission
issues exactly one sendMessageStream request, and a concrete accepted first
submission with a successful profile generation clears the first-message
flag. -/
theorem state_machine_transitions_once_witness :
    (handleChatSubmit "hey" (.error ()) (.error ()) (.ok ["ok"])
      establishedState samplePortrait).2.2 = [Request.sendMessageStream "hey"] ∧
    (handleChatSubmit "hi" (.ok sampleProfile) (.error ()) (.error ())
      initialAppState samplePortrait).1.isFirstMessage = false := by
  constructor
  · exact ((state_machine_transitions_once "hey" (.error ()) (.error ())
      (.ok ["ok"]) establishedState samplePortrait).1 rfl).2.2.2.2 rfl
      (by decide) (by simp [establishedState])
  · exact ((state_machine_transitions_once "hi" (.ok sampleProfile)
      (.error ()) (.error ()) initialAppState samplePortrait).2 rfl rfl
      (by decide) sampleProfile rfl).1

/-- C3: when the profile-generation step fails (the request threw or its
response did not parse), `generateNpcAndStartChat` removes the placeholder,
appends exactly one fixed failure message, creates no chat session, assigns
no profile, leaves the first-contact flag unchanged (so a session awaiting
first contact remains awaiting and may retry), clears the busy flag, and has
issued only the one profile-generation request. -/
theorem contact_failure_recovers (initialPrompt : String) (u : Unit)
    (ir : Except Unit String) (s : AppState) (ps : PortraitState) :
    generateNpcAndStartChat initialPrompt (.error u) ir s ps =
      ({ s with transcript := s.transcript ++ [connectionFailureMessage],
                isGenerating := false },
       ps, [Request.generateContent "gemini-2.5-flash"
              (npcGenerationPrompt initialPrompt)]) ∧
    (generateNpcAndStartChat initialPrompt (.error u) ir s ps).1.chat = s.chat ∧
    (generateNpcAndStartChat initialPrompt (.error u) ir s ps).1.npcProfile =
      s.npcProfile ∧
    (generateNpcAndStartChat initialPrompt (.error u) ir s ps).1.isFirstMessage =
      s.isFirstMessage ∧
    (generateNpcAndStartChat initialPrompt (.error u) ir s ps).1.isGenerating =
      false :=
  ⟨generateNpcAndStartChat_err initialPrompt u ir s ps, rfl, rfl, rfl, rfl⟩

/-- C4: in any reachable state, the profile, once assigned, is never
reassigned or mutated by any further submission — including a retried
contact attempt after a failure. -/
theorem profile_assigned_once (s : AppState) (hs : Reachable s)
    (p : NpcProfile) (hp : s.npcProfile = some p)
    (rawInput : String) (pr : Except Unit NpcProfile)
    (ir : Except Unit String) (sr : Except Unit (List String))
    (ps : PortraitState) :
    (handleChatSubmit rawInput pr ir sr s ps).1.npcProfile = some p := by
  have hinv := reachable_inv s hs
  cases hG : s.isGenerating with
  | true => rw [handleChatSubmit_busy _ _ _ _ _ _ hG]; exact hp
  | false =>
    by_cases he : jsTrim rawInput = ""
    · rw [handleChatSubmit_emptyInput _ _ _ _ _ _ hG he]; exact hp
    · cases hf : s.isFirstMessage with
      | true => simp [(hinv.1 hf).1] at hp
      | false =>
        cases hc : s.chat with
        | none => exact absurd hc (hinv.2 hf).1
        | some c =>
          cases sr with
          | ok chunks =>
            rw [handleChatSubmit_chat_ok rawInput pr ir chunks s ps c hG he hf hc]
            exact hp
          | error u =>
            rw [handleChatSubmit_chat_err rawInput pr ir u s ps c hG he hf hc]
            exact hp

/-- C4 witness: after a concrete successful first contact the stored profile
survives a further concrete submission unchanged. -/
theorem profile_assigned_once_witness :
    (handleChatSubmit "again" (.error ()) (.error ()) (.ok ["hm"])
      contactState samplePortrait).1.npcProfile = some sampleProfile :=
  profile_assigned_once contactState contactState_reachable sampleProfile rfl
    "again" (.error ()) (.error ()) (.ok ["hm"]) samplePortrait

/-- C5: a submission issued while the busy flag is set changes neither the
transcript nor any session state and issues no outbound request. -/
theorem busy_submission_rejected (rawInput : String)
    (pr : Except Unit NpcProfile) (ir : Except Unit String)
    (sr : Except Unit (List String)) (s : AppState) (ps : PortraitState)
    (h : s.isGenerating = true) :
    handleChatSubmit rawInput pr ir sr s ps = (s, ps, []) :=
  handleChatSubmit_busy rawInput pr ir sr s ps h

/-- C5 witness: a concrete busy state is returned unchanged with no
requests. -/
theorem busy_submission_rejected_witness :
    handleChatSubmit "hi" (.error ()) (.error ()) (.error ())
      { initialAppState with isGenerating := true } samplePortrait =
    ({ initialAppState with isGenerating := true }, samplePortrait, []) :=
  busy_submission_rejected "hi" (.error ()) (.error ()) (.error ())
    { initialAppState with isGenerating := true } samplePortrait rfl

/-- C9: in every reachable state, if the first-message flag is cleared (the
session is in dialogue) then the chat handle and the profile are both
non-null. -/
theorem in_dialogue_handles_nonnull (s : AppState) (hs : Reachable s)
    (h : s.isFirstMessage = false) :
    s.chat ≠ none ∧ s.npcProfile ≠ none :=
  (reachable_inv s hs).2 h

/-- C9 witness: the concrete state reached by one successful first contact
is in dialogue and has both handles present. -/
theorem in_dialogue_handles_nonnull_witness :
    contactState.chat ≠ none ∧ contactState.npcProfile ≠ none :=
  in_dialogue_handles_nonnull contactState contactState_reachable rfl

/-- C8: failure of the image-generation step never aborts, rolls back or
blocks the surrounding text flow: the app-state outcome of contact
establishment and the requests it issues are identical for every portrait
outcome (the portrait request is fired without being awaited), the portrait
loading indicator is hidden at the end regardless of outcome, and on failure
the placeholder is shown with the fixed failure caption. -/
theorem image_failure_isolated (initialPrompt : String)
    (pr : Except Unit NpcProfile) (ir ir' : Except Unit String)
    (s : AppState) (ps : PortraitState) (prompt : String) (u : Unit) :
    ((generateNpcAndStartChat initialPrompt pr ir s ps).1 =
      (generateNpcAndStartChat initialPrompt pr ir' s ps).1) ∧
    ((generateNpcAndStartChat initialPrompt pr ir s ps).2.2 =
      (generateNpcAndStartChat initialPrompt pr ir' s ps).2.2) ∧
    ((generateNpcImage prompt ir ps).1.loaderHidden = true) ∧
    ((generateNpcImage prompt (.error u) ps).1.placeholderHidden = false ∧
     (generateNpcImage prompt (.error u) ps).1.placeholderCaption =
       portraitFailureCaption) := by
  refine ⟨?_, ?_, ?_, rfl, rfl⟩
  · cases pr with
    | ok p => rw [generateNpcAndStartChat_ok, generateNpcAndStartChat_ok]
    | error v => rw [generateNpcAndStartChat_err, generateNpcAndStartChat_err]
  · cases pr with
    | ok p =>
      rw [generateNpcAndStartChat_ok, generateNpcAndStartChat_ok,
        generateNpcImage_reqs, generateNpcImage_reqs]
    | error v => rw [generateNpcAndStartChat_err, generateNpcAndStartChat_err]
  · cases ir with
    | ok b => rfl
    | error v => rfl

/-- C10: a submission whose input is empty or whitespace after trimming is
silently ignored even when not busy — no transcript change, no request, no
state change — and an accepted submission echoes the trimmed text (not the
raw input) into the transcript and sends the trimmed text (or embeds it in
the profile-generation prompt) in the outbound request. -/
theorem whitespace_input_ignored (rawInput : String)
    (pr : Except Unit NpcProfile) (ir : Except Unit String)
    (sr : Except Unit (List String)) (s : AppState) (ps : PortraitState)
    (hb : s.isGenerating = false) :
    (jsTrim rawInput = "" →
      handleChatSubmit rawInput pr ir sr s ps = (s, ps, [])) ∧
    (jsTrim rawInput ≠ "" →
      (∃ rest, (handleChatSubmit rawInput pr ir sr s ps).1.transcript =
        s.transcript ++
          { text := jsTrim rawInput, sender := .user, streaming := false } :: rest) ∧
      (∀ m, Request.sendMessageStream m ∈
          (handleChatSubmit rawInput pr ir sr s ps).2.2 → m = jsTrim rawInput) ∧
      (∀ mdl q, Request.generateContent mdl q ∈
          (handleChatSubmit rawInput pr ir sr s ps).2.2 →
          q = npcGenerationPrompt (jsTrim rawInput))) := by
  constructor
  · intro he
    exact handleChatSubmit_emptyInput rawInput pr ir sr s ps hb he
  · intro he
    cases hf : s.isFirstMessage with
    | true =>
      rw [handleChatSubmit_first rawInput pr ir sr s ps hb he hf]
      cases pr with
      | ok p =>
        rw [generateNpcAndStartChat_ok, generateNpcImage_reqs]
        refine ⟨⟨[renderNpcMessage [p.first_message]], by simp⟩, ?_, ?_⟩
        · intro m hm
          simp at hm
        · intro mdl q hq
          simp at hq
          exact hq.2
      | error v =>
        rw [generateNpcAndStartChat_err]
        refine ⟨⟨[connectionFailureMessage], by simp⟩, ?_, ?_⟩
        · intro m hm
          simp at hm
        · intro mdl q hq
          simp at hq
          exact hq.2
    | false =>
      cases hc : s.chat with
      | none =>
        rw [handleChatSubmit_noChat rawInput pr ir sr s ps hb he hf hc]
        exact ⟨⟨[], by simp⟩, fun m hm => by simp at hm,
               fun mdl q hq => by simp at hq⟩
      | some c =>
        cases sr with
        | ok chunks =>
          rw [handleChatSubmit_chat_ok rawInput pr ir chunks s ps c hb he hf hc]
          refine ⟨⟨[renderNpcMessage chunks], by simp⟩, ?_, ?_⟩
          · intro m hm
            simp at hm
            exact hm
          · intro mdl q hq
            simp at hq
        | error u =>
          rw [handleChatSubmit_chat_err rawInput pr ir u s ps c hb he hf hc]
          refine ⟨⟨[chatFailureMessage], by simp⟩, ?_, ?_⟩
          · intro m hm
            simp at hm
            exact hm
          · intro mdl q hq
            simp at hq

/-- C10 witness: a concrete all-whitespace submission is ignored entirely,
and a concrete padded submission echoes its trimmed text. -/
theorem whitespace_input_ignored_witness :
    handleChatSubmit "   " (.error ()) (.error ()) (.error ())
      initialAppState samplePortrait = (initialAppState, samplePortrait, []) ∧
    ∃ rest,
      (handleChatSubmit " hi " (.error ()) (.error ()) (.error ())
        initialAppState samplePortrait).1.transcript =
      { text := "hi", sender := Sender.user, streaming := false } :: rest := by
  constructor
  · exact (whitespace_input_ignored "   " (.error ()) (.error ()) (.error ())
      initialAppState samplePortrait rfl).1 (by decide)
  · have h := ((whitespace_input_ignored " hi " (.error ()) (.error ())
      (.error ()) initialAppState samplePortrait rfl).2 (by decide)).1
    have ht : jsTrim " hi " = "hi" := by decide
    rw [ht] at h
    simpa [initialAppState] using h

end PlantChat
